import Mathlib

/-!
Verification of the conversational dispatch engine in `main-template.py`.

Strings are modelled as lists of Unicode code points (`List Char`), matching
Python's view of `str` as a sequence of code points.  Side effects (HTTP posts
to the Telegram API, JSON-file writes, log lines) are modelled as an explicit
trace of `Effect` values; the success or failure of each external call is
supplied by a `Transport` oracle.  The webhook handler `telegram_webhook` is a
function from the oracle, the in-memory `user_states` map and one inbound
event to a result that is either a normal return or an uncaught exception.
-/

/-- Python strings, as sequences of code points. -/
abbrev Str := List Char

/-- Code points of a Lean string literal (used to transcribe the Python
string literals of the source). -/
def strOf (s : String) : Str := s.data

/-- Python's `str.isspace` on a single code point, i.e. the separators used by
`str.split` with no explicit separator: ASCII whitespace, the C1/Unicode
space characters. -/
def pyIsSpace (c : Char) : Bool :=
  (9 ≤ c.toNat && c.toNat ≤ 13) || c.toNat = 32 ||
  (0x1C ≤ c.toNat && c.toNat ≤ 0x1F) || c.toNat = 0x85 || c.toNat = 0xA0 ||
  c.toNat = 0x1680 || (0x2000 ≤ c.toNat && c.toNat ≤ 0x200A) ||
  c.toNat = 0x2028 || c.toNat = 0x2029 || c.toNat = 0x202F ||
  c.toNat = 0x205F || c.toNat = 0x3000

/-- Python's `str.isdigit` on a single code point.  Python classifies every
Unicode decimal digit (category Nd) and the superscript and subscript digits,
not only ASCII `0`-`9`.  The table below lists ASCII digits, the super- and
subscript digits, the fullwidth digits and the decimal-digit blocks of the
common scripts; Python additionally accepts further Nd blocks of the same
kind, none of which occur in this development. -/
def pyIsDigit (c : Char) : Bool :=
  (0x30 ≤ c.toNat && c.toNat ≤ 0x39) ||
  c.toNat = 0xB2 || c.toNat = 0xB3 || c.toNat = 0xB9 ||
  (0x660 ≤ c.toNat && c.toNat ≤ 0x669) ||
  (0x6F0 ≤ c.toNat && c.toNat ≤ 0x6F9) ||
  (0x966 ≤ c.toNat && c.toNat ≤ 0x96F) ||
  (0x9E6 ≤ c.toNat && c.toNat ≤ 0x9EF) ||
  (0xA66 ≤ c.toNat && c.toNat ≤ 0xA6F) ||
  (0xAE6 ≤ c.toNat && c.toNat ≤ 0xAEF) ||
  (0xB66 ≤ c.toNat && c.toNat ≤ 0xB6F) ||
  (0xBE6 ≤ c.toNat && c.toNat ≤ 0xBEF) ||
  (0xC66 ≤ c.toNat && c.toNat ≤ 0xC6F) ||
  (0xCE6 ≤ c.toNat && c.toNat ≤ 0xCEF) ||
  (0xD66 ≤ c.toNat && c.toNat ≤ 0xD6F) ||
  (0xE50 ≤ c.toNat && c.toNat ≤ 0xE59) ||
  (0xED0 ≤ c.toNat && c.toNat ≤ 0xED9) ||
  (0xF20 ≤ c.toNat && c.toNat ≤ 0xF29) ||
  (0x1040 ≤ c.toNat && c.toNat ≤ 0x1049) ||
  c.toNat = 0x2070 || (0x2074 ≤ c.toNat && c.toNat ≤ 0x2079) ||
  (0x2080 ≤ c.toNat && c.toNat ≤ 0x2089) ||
  (0xFF10 ≤ c.toNat && c.toNat ≤ 0xFF19)

/-- The spec's words: an ASCII digit character (`0`-`9`).  Kept separate from
`pyIsDigit` so the spec's "ASCII digit" requirement can be compared with the
implementation's Unicode-aware test. -/
def isAsciiDigit (c : Char) : Bool := 0x30 ≤ c.toNat && c.toNat ≤ 0x39

/-- Python's `str.isdigit` on a whole string: false on the empty string,
else every code point is a digit. -/
def pyStrIsDigit (s : Str) : Bool := !s.isEmpty && s.all pyIsDigit

/-- Python's `s.split(maxsplit=1)` (separator `None`): strip leading
whitespace; if nothing remains the result is `[]`; otherwise the first part is
the maximal run of non-whitespace, and, after discarding the following
whitespace run, the untouched remainder is the second part (omitted when
empty). -/
def pySplitMax1 (s : Str) : List Str :=
  if (s.dropWhile pyIsSpace).isEmpty then []
  else
    if (((s.dropWhile pyIsSpace).dropWhile (fun c => !pyIsSpace c)).dropWhile pyIsSpace).isEmpty then
      [(s.dropWhile pyIsSpace).takeWhile (fun c => !pyIsSpace c)]
    else
      [(s.dropWhile pyIsSpace).takeWhile (fun c => !pyIsSpace c),
       ((s.dropWhile pyIsSpace).dropWhile (fun c => !pyIsSpace c)).dropWhile pyIsSpace]

/-- Python `phone_number.startswith("+")`. -/
def startsWithPlus : Str → Bool
  | [] => false
  | c :: _ => c = '+'

/-- Outcome of the inline contact validation (lines 256-268). -/
inductive ValidationResult where
  | Valid (name phone : Str)
  | Invalid
deriving DecidableEq, Repr

/-- The contact validation of the registration branch: `message_text.split(maxsplit=1)`
must give exactly two parts, and the second must start with `+`, have only
digit characters after it (`str.isdigit`), and be exactly 13 characters long. -/
def validate (message_text : Str) : ValidationResult :=
  match pySplitMax1 message_text with
  | [name, phone_number] =>
      if startsWithPlus phone_number && pyStrIsDigit (phone_number.drop 1)
          && phone_number.length == 13 then
        .Valid name phone_number
      else
        .Invalid
  | _ => .Invalid

/-- A reply descriptor: one value of `RESPONSES_MAP` or an ad-hoc dict built
at a call site.  A `none` field models an absent dictionary key. -/
structure Reply where
  text : Option Str
  buttons : List Str
  photo : Option Str
  file : Option Str
  follow_up : Option Str
deriving DecidableEq, Repr

/-- A reply dict with only a `text` key, as built inline at several call
sites of `send_telegram_message`. -/
def textOnly (t : Str) : Reply := ⟨some t, [], none, none, none⟩

/-- Python truthiness of an optional string value: a missing key and an empty
string are both falsy. -/
def truthyStr : Option Str → Bool
  | none => false
  | some s => !s.isEmpty

/-- The guard at the top of `send_telegram_message`: no (truthy) `text`,
`photo` or `file` key. -/
def isEmptyReply (reply : Reply) : Bool :=
  !truthyStr reply.text && !truthyStr reply.photo && !truthyStr reply.file

/-- `reply.get("photo") or reply.get("file")` is truthy. -/
def hasMedia (reply : Reply) : Bool :=
  truthyStr reply.photo || truthyStr reply.file

/-- `file_key = reply.get("photo") or reply.get("file")` (for replies where
`hasMedia` holds). -/
def mediaFileKey (reply : Reply) : Str :=
  if truthyStr reply.photo then reply.photo.getD [] else reply.file.getD []

/-- `RESPONSES_MAP["/start"]`. -/
def startReply : Reply :=
  ⟨some (strOf "Hello! Welcome to the bot!\n\nWhat would you like to do?"),
   [strOf "Option A", strOf "Option B", strOf "Register"], none, none, none⟩

/-- `RESPONSES_MAP["Option A"]`. -/
def optionAReply : Reply :=
  textOnly (strOf "You chose Option A. This is the resulting message.")

/-- `RESPONSES_MAP["Option B"]`. -/
def optionBReply : Reply :=
  textOnly (strOf "You chose Option B. This is the resulting message.")

/-- `RESPONSES_MAP["Register"]`. -/
def registerReply : Reply :=
  textOnly (strOf "To register, please send your Name and Phone number in the format: **John +123456789012**")

/-- `RESPONSES_MAP["WAITING_FOR_CONTACT"]`. -/
def waitingReply : Reply :=
  textOnly (strOf "Thank you, I'm expecting your contact details now. Format: Name +PhoneNumber")

/-- `RESPONSES_MAP["sequential_step_1"]`. -/
def seqStep1Reply : Reply :=
  ⟨some (strOf "Answer the first question:"), [strOf "Yes", strOf "No"], none, none, none⟩

/-- `RESPONSES_MAP["sequential_step_2"]`. -/
def seqStep2Reply : Reply :=
  ⟨some (strOf "Thank you for your answer!"), [], none, none,
   some (strOf "Here is a follow-up message after a short delay.")⟩

/-- `RESPONSES_MAP["final_action"]`. -/
def finalActionReply : Reply :=
  textOnly (strOf "Test completed. Join our channel: [Link](https://t.me/example)")

/-- The static response catalog, as a key-value sequence in source order. -/
def RESPONSES_MAP : List (Str × Reply) :=
  [(strOf "/start", startReply),
   (strOf "Option A", optionAReply),
   (strOf "Option B", optionBReply),
   (strOf "Register", registerReply),
   (strOf "WAITING_FOR_CONTACT", waitingReply),
   (strOf "sequential_step_1", seqStep1Reply),
   (strOf "sequential_step_2", seqStep2Reply),
   (strOf "final_action", finalActionReply)]

/-- Python dict lookup (`key in d` / `d[key]`) on the catalog. -/
def lookupMap (m : List (Str × Reply)) (k : Str) : Option Reply :=
  match m with
  | [] => none
  | (k2, v) :: rest => if k = k2 then some v else lookupMap rest k

/-- The per-user state string `"WAITING_FOR_CONTACT"` stored in `user_states`. -/
def WAITING_FOR_CONTACT : Str := strOf "WAITING_FOR_CONTACT"

/-- Oracle for the outcomes of the external calls made while handling one
event: whether the media file opens, whether each kind of HTTP post raises a
`requests.RequestException`, and whether the `answerCallbackQuery` post (which
the code does not guard with try/except) raises. -/
structure Transport where
  fileFound : Bool
  mediaOk : Bool
  textOk : Bool
  ackRaises : Bool
  delayedOk : Bool
deriving DecidableEq, Repr

/-- One observable external action of the handler.  Log lines model the
`print` calls; `post…` effects model HTTP posts to the Telegram API (the
effect records the attempt; the `Transport` oracle decides its success);
`observeChatId` models the `save_chat_ids` call and `persistContact` the
`save_user_contact` call (whose stored `capturedAt` timestamp is outside the
model). -/
inductive Effect where
  | warnEmpty (chat_id : Int)
  | postMedia (chat_id : Int) (isPhoto : Bool) (fileKey : Str) (caption : Str)
  | logFileNotFound (fileKey : Str)
  | logMediaError
  | postText (chat_id : Int) (text : Str) (buttons : List Str)
  | logTextError
  | scheduleDelayed (chat_id : Int) (text : Str)
  | postDelayed (chat_id : Int) (text : Str)
  | logDelayedError
  | ackCallback (query_id : Str)
  | observeChatId (chat_id : Int)
  | persistContact (chat_id : Int) (name : Str) (phone : Str)
deriving DecidableEq, Repr

/-- The text-message part of `send_telegram_message` (lines 165-198): build the
`sendMessage` payload (buttons become the inline keyboard; an empty list is
falsy, hence no markup, which the payload with an empty button list also
denotes), post it once, and on success start the follow-up timer when
`follow_up` is truthy; a `RequestException` is logged. -/
def sendTextPath (tr : Transport) (chat_id : Int) (reply : Reply) : List Effect :=
  if tr.textOk then
    Effect.postText chat_id (reply.text.getD []) reply.buttons ::
      (if truthyStr reply.follow_up then
         [Effect.scheduleDelayed chat_id (reply.follow_up.getD [])]
       else [])
  else
    [Effect.postText chat_id (reply.text.getD []) reply.buttons, Effect.logTextError]

/-- The warning text built in the `FileNotFoundError` handler. -/
def fileNotFoundText (reply : Reply) : Str :=
  strOf "⚠️ Media file not found for `" ++ mediaFileKey reply ++ strOf "`. " ++
    reply.text.getD (strOf "Placeholder message.")

/-- `send_telegram_message` (lines 107-198).  The `FileNotFoundError` branch
calls `send_telegram_message` again on a text-only dict; that dict has a
non-empty `text` and no media keys, so the recursive call always lands in the
text path, and is embedded here as the direct call to `sendTextPath`. -/
def send_telegram_message (tr : Transport) (chat_id : Int) (reply : Reply) : List Effect :=
  if isEmptyReply reply then
    [Effect.warnEmpty chat_id]
  else if hasMedia reply then
    if tr.fileFound then
      if tr.mediaOk then
        Effect.postMedia chat_id (truthyStr reply.photo) (mediaFileKey reply) (reply.text.getD []) ::
          (if truthyStr reply.follow_up then
             [Effect.scheduleDelayed chat_id (reply.follow_up.getD [])]
           else [])
      else
        [Effect.postMedia chat_id (truthyStr reply.photo) (mediaFileKey reply) (reply.text.getD []),
         Effect.logMediaError]
    else
      Effect.logFileNotFound (mediaFileKey reply) ::
        sendTextPath tr chat_id (textOnly (fileNotFoundText reply))
  else
    sendTextPath tr chat_id reply

/-- `send_delayed_message` (lines 201-209): one `sendMessage` post of the bare
text; a `RequestException` is logged. -/
def send_delayed_message (tr : Transport) (chat_id : Int) (text : Str) : List Effect :=
  if tr.delayedOk then [Effect.postDelayed chat_id text]
  else [Effect.postDelayed chat_id text, Effect.logDelayedError]

/-- The in-memory `user_states` dict: per chat id, the pending state string
(or nothing). -/
def UserStates := Int → Option Str

/-- `user_states[chat_id] = v`. -/
def setState (s : UserStates) (chat_id : Int) (v : Str) : UserStates :=
  fun j => if j = chat_id then some v else s j

/-- `del user_states[chat_id]` (also covering the guarded delete in the
`/start` branch, which leaves absent entries absent). -/
def clearState (s : UserStates) (chat_id : Int) : UserStates :=
  fun j => if j = chat_id then none else s j

/-- One decoded webhook update: a plain message or a callback query. -/
inductive InboundEvent where
  | textMessage (chat_id : Int) (text : Str)
  | buttonPress (chat_id : Int) (query_id : Str) (callback_data : Str)
deriving DecidableEq, Repr

/-- Result of one run of the handler: a normal return carrying the new
`user_states` and the effect trace, or an abort by an uncaught exception
(carrying the states and trace at the point of the raise). -/
inductive WebhookResult where
  | ok (states : UserStates) (effects : List Effect)
  | uncaught (states : UserStates) (effects : List Effect)

/-- The `user_states` map after the run. -/
def WebhookResult.states : WebhookResult → UserStates
  | .ok s _ => s
  | .uncaught s _ => s

/-- The effect trace of the run. -/
def WebhookResult.effects : WebhookResult → List Effect
  | .ok _ e => e
  | .uncaught _ e => e

/-- Whether the handler returned normally. -/
def WebhookResult.isOk : WebhookResult → Bool
  | .ok _ _ => true
  | .uncaught _ _ => false

/-- Text of the unknown-callback reply dict (line 240). -/
def unknownOptionText (callback_data : Str) : Str :=
  strOf "Unknown option: `" ++ callback_data ++ strOf "`\n\nTry /start"

/-- Text of the confirmation reply dict (line 274). -/
def confirmationText (name phone_number : Str) : Str :=
  strOf "✅ Information for **" ++ name ++ strOf "** received and saved. Phone: `"
    ++ phone_number ++ strOf "`"

/-- The fixed invalid-format reply dict (lines 284-289). -/
def invalidFormatReply : Reply :=
  textOnly (strOf "⚠️ Invalid format. Please try again using: **Name +123456789012**")

/-- The fixed fallback reply dict for unrecognized input (lines 313-318). -/
def dontUnderstandReply : Reply :=
  textOnly (strOf "I didn't understand that. Please use the buttons or type /start.")

/-- `telegram_webhook` (lines 215-320) on one decoded update.  The
`answerCallbackQuery` post (line 227) is not inside a try/except, so a raise
there aborts the handler; every other external call is guarded in the
functions it happens in (and the registration branch is additionally wrapped
in a catch-all try/except, whose handler nothing in this model reaches). -/
def telegram_webhook (tr : Transport) (s : UserStates) (ev : InboundEvent) : WebhookResult :=
  match ev with
  | .buttonPress chat_id query_id callback_data =>
      if tr.ackRaises then
        .uncaught s [Effect.ackCallback query_id]
      else if callback_data = strOf "Register" then
        .ok (setState s chat_id WAITING_FOR_CONTACT)
          (Effect.ackCallback query_id :: send_telegram_message tr chat_id registerReply)
      else
        match lookupMap RESPONSES_MAP callback_data with
        | some reply =>
            .ok s (Effect.ackCallback query_id :: send_telegram_message tr chat_id reply)
        | none =>
            .ok s (Effect.ackCallback query_id ::
              send_telegram_message tr chat_id (textOnly (unknownOptionText callback_data)))
  | .textMessage chat_id message_text =>
      if s chat_id = some WAITING_FOR_CONTACT then
        match validate message_text with
        | .Valid name phone_number =>
            .ok (clearState s chat_id)
              (Effect.observeChatId chat_id ::
               Effect.persistContact chat_id name phone_number ::
               (send_telegram_message tr chat_id (textOnly (confirmationText name phone_number)) ++
                send_telegram_message tr chat_id startReply))
        | .Invalid =>
            .ok s (Effect.observeChatId chat_id ::
              send_telegram_message tr chat_id invalidFormatReply)
      else if message_text = strOf "/start" then
        .ok (clearState s chat_id)
          (Effect.observeChatId chat_id :: send_telegram_message tr chat_id startReply)
      else
        match lookupMap RESPONSES_MAP message_text with
        | some reply =>
            .ok s (Effect.observeChatId chat_id :: send_telegram_message tr chat_id reply)
        | none =>
            .ok s (Effect.observeChatId chat_id ::
              send_telegram_message tr chat_id dontUnderstandReply)

/-- Run the handler over a sequence of updates, threading `user_states`. -/
def runEvents (tr : Transport) (evs : List InboundEvent) (s : UserStates) : UserStates :=
  match evs with
  | [] => s
  | ev :: rest => runEvents tr rest ((telegram_webhook tr s ev).states)

/-- Every entry of `user_states` holds the string `"WAITING_FOR_CONTACT"`. -/
def StatesInv (s : UserStates) : Prop :=
  ∀ chat_id v, s chat_id = some v → v = WAITING_FOR_CONTACT

/-! ### Helper lemmas -/

theorem ne_nil_append_left {l m : Str} (h : l ≠ []) : l ++ m ≠ [] := by
  cases l with
  | nil => exact absurd rfl h
  | cons a t => simp

theorem sendTextPath_mem (tr : Transport) (chat_id : Int) (reply : Reply) :
    Effect.postText chat_id (reply.text.getD []) reply.buttons ∈ sendTextPath tr chat_id reply := by
  unfold sendTextPath
  split
  · exact List.mem_cons_self _ _
  · exact List.mem_cons_self _ _

theorem textOnly_path (tr : Transport) (chat_id : Int) (t : Str) (h : t ≠ []) :
    send_telegram_message tr chat_id (textOnly t) = sendTextPath tr chat_id (textOnly t) := by
  cases t with
  | nil => exact absurd rfl h
  | cons a l => rfl

theorem postText_mem_send_textOnly (tr : Transport) (chat_id : Int) (t : Str) (h : t ≠ []) :
    Effect.postText chat_id t [] ∈ send_telegram_message tr chat_id (textOnly t) := by
  rw [textOnly_path tr chat_id t h]
  exact sendTextPath_mem tr chat_id (textOnly t)

/-- Effects that notify the storage collaborator. -/
def isObserveEffect : Effect → Bool
  | .observeChatId _ => true
  | _ => false

/-- Effects that persist a contact record. -/
def isPersistEffect : Effect → Bool
  | .persistContact _ _ _ => true
  | _ => false

theorem sendTextPath_not_store (tr : Transport) (chat_id : Int) (reply : Reply) :
    ∀ e ∈ sendTextPath tr chat_id reply, isObserveEffect e = false ∧ isPersistEffect e = false := by
  intro e he
  unfold sendTextPath at he
  split at he
  · simp at he
    rcases he with h | ⟨h1, h2⟩
    · subst h; exact ⟨rfl, rfl⟩
    · subst h2; exact ⟨rfl, rfl⟩
  · simp at he
    rcases he with h | h <;> subst h <;> exact ⟨rfl, rfl⟩

theorem send_not_store (tr : Transport) (chat_id : Int) (reply : Reply) :
    ∀ e ∈ send_telegram_message tr chat_id reply,
      isObserveEffect e = false ∧ isPersistEffect e = false := by
  intro e he
  unfold send_telegram_message at he
  split at he
  · simp at he; subst he; exact ⟨rfl, rfl⟩
  · split at he
    · split at he
      · split at he
        · simp at he
          rcases he with h | ⟨h1, h2⟩
          · subst h; exact ⟨rfl, rfl⟩
          · subst h2; exact ⟨rfl, rfl⟩
        · simp at he
          rcases he with h | h <;> subst h <;> exact ⟨rfl, rfl⟩
      · simp at he
        rcases he with h | h
        · subst h; exact ⟨rfl, rfl⟩
        · exact sendTextPath_not_store _ _ _ e h
    · exact sendTextPath_not_store _ _ _ e he

theorem send_countP_observe (tr : Transport) (chat_id : Int) (reply : Reply) :
    (send_telegram_message tr chat_id reply).countP isObserveEffect = 0 := by
  rw [List.countP_eq_zero]
  intro e he
  simp [(send_not_store tr chat_id reply e he).1]

theorem send_countP_persist (tr : Transport) (chat_id : Int) (reply : Reply) :
    (send_telegram_message tr chat_id reply).countP isPersistEffect = 0 := by
  rw [List.countP_eq_zero]
  intro e he
  simp [(send_not_store tr chat_id reply e he).2]

theorem dropWhile_head_not {q : Char → Bool} :
    ∀ (l : List Char) (c : Char) (t : List Char), l.dropWhile q = c :: t → q c = false := by
  intro l
  induction l with
  | nil => intro c t h; simp [List.dropWhile] at h
  | cons a as ih =>
    intro c t h
    rw [List.dropWhile_cons] at h
    cases hqa : q a with
    | true => rw [hqa] at h; simp at h; exact ih c t h
    | false =>
      rw [hqa] at h
      simp at h
      rw [← h.1]
      exact hqa

theorem pySplitMax1_parts {s n p : Str} (h : pySplitMax1 s = [n, p]) :
    n ≠ [] ∧ p ≠ [] := by
  unfold pySplitMax1 at h
  split at h
  · exact absurd h (by simp)
  · rename_i h1
    split at h
    · exact absurd h (by simp)
    · rename_i h2
      injection h with hn h'
      injection h' with hp _
      constructor
      · rw [← hn]
        cases hd : s.dropWhile pyIsSpace with
        | nil => rw [hd] at h1; simp at h1
        | cons c t =>
          have hc : pyIsSpace c = false := dropWhile_head_not s c t hd
          simp [List.takeWhile_cons, hc]
      · rw [← hp]
        intro hnil
        rw [hnil] at h2
        simp at h2

theorem startsWithPlus_iff (p : Str) : startsWithPlus p = true ↔ p.head? = some '+' := by
  cases p with
  | nil => simp [startsWithPlus]
  | cons c t => simp [startsWithPlus]

/-- C1 (amended): the contact validator accepts an input exactly when
`split(maxsplit=1)` yields two (necessarily non-empty) parts whose second
starts with `+`, whose remaining characters are all digits in the sense of
Python's `str.isdigit` (which includes non-ASCII digit characters), and whose
total length is 13; every other shape is Invalid. -/
theorem validate_characterization (msg : Str) :
    (∃ name phone, validate msg = .Valid name phone) ↔
    (∃ name phone, pySplitMax1 msg = [name, phone] ∧ name ≠ [] ∧ phone ≠ [] ∧
      phone.head? = some '+' ∧ (∀ c ∈ phone.drop 1, pyIsDigit c = true) ∧
      phone.length = 13) := by
  constructor
  · rintro ⟨name, phone, h⟩
    unfold validate at h
    rcases hsp : pySplitMax1 msg with _ | ⟨a, _ | ⟨b, _ | ⟨c, l⟩⟩⟩ <;> rw [hsp] at h
    · simp at h
    · simp at h
    · simp only [] at h
      split at h
      · rename_i hcond
        simp only [Bool.and_eq_true] at hcond
        obtain ⟨⟨hplus, hdig⟩, hlen⟩ := hcond
        obtain ⟨hne1, hne2⟩ := pySplitMax1_parts hsp
        refine ⟨a, b, rfl, hne1, hne2, ?_, ?_, ?_⟩
        · exact (startsWithPlus_iff b).mp hplus
        · unfold pyStrIsDigit at hdig
          rw [Bool.and_eq_true] at hdig
          exact fun c hc => List.all_eq_true.mp hdig.2 c hc
        · simpa using hlen
      · simp at h
    · simp at h
  · rintro ⟨name, phone, hsp, hne1, hne2, hplus, hdig, hlen⟩
    refine ⟨name, phone, ?_⟩
    unfold validate
    rw [hsp]
    have h1 : startsWithPlus phone = true := (startsWithPlus_iff phone).mpr hplus
    have h2 : pyStrIsDigit (phone.drop 1) = true := by
      unfold pyStrIsDigit
      rw [Bool.and_eq_true]
      constructor
      · cases hd : phone.drop 1 with
        | nil =>
          have hlen2 := congrArg List.length hd
          simp [hlen] at hlen2
        | cons x xs => rfl
      · exact List.all_eq_true.mpr hdig
    have h3 : (phone.length == 13) = true := by simpa using hlen
    simp only [h1, h2, h3]
    rfl

/-- C1 counterexample: the claimed ASCII-digit restriction fails.  The input
`"John +٢٢٢٢٢٢٢٢٢٢٢٢"` has a phone token made of `+` and twelve Arabic-Indic
digits; none of them is an ASCII digit, yet the validator accepts it, because
Python's `str.isdigit` accepts any Unicode decimal digit. -/
theorem validate_accepts_nonascii :
    validate (strOf "John +٢٢٢٢٢٢٢٢٢٢٢٢")
      = .Valid (strOf "John") (strOf "+٢٢٢٢٢٢٢٢٢٢٢٢")
    ∧ '٢' ∈ strOf "+٢٢٢٢٢٢٢٢٢٢٢٢"
    ∧ isAsciiDigit '٢' = false := by
  refine ⟨by decide, by decide, by decide⟩

/-- C1 witness: the running example of the spec is accepted, and the
characterization applies to it. -/
theorem validate_characterization_witness :
    ∃ name phone, pySplitMax1 (strOf "John +123456789012") = [name, phone] ∧
      name ≠ [] ∧ phone ≠ [] ∧ phone.head? = some '+' ∧
      (∀ c ∈ phone.drop 1, pyIsDigit c = true) ∧ phone.length = 13 :=
  (validate_characterization (strOf "John +123456789012")).mp
    ⟨strOf "John", strOf "+123456789012", by decide⟩

theorem ne_nil_append_right {l m : Str} (h : m ≠ []) : l ++ m ≠ [] := by
  intro hx
  rw [List.append_eq_nil] at hx
  exact h hx.2

theorem send_text_eq {reply : Reply} (h1 : isEmptyReply reply = false)
    (h2 : hasMedia reply = false) (tr : Transport) (chat_id : Int) :
    send_telegram_message tr chat_id reply = sendTextPath tr chat_id reply := by
  unfold send_telegram_message
  simp [h1, h2]

/-- C3 (amended): for every user whose current conversation state is not
`WAITING_FOR_CONTACT`, a `"/start"` text message returns normally, clears
that user's state, and delivers the start descriptor.  (A user who is in
`WAITING_FOR_CONTACT` instead hits the registration branch first, which is
checked before the `/start` branch.) -/
theorem start_clears_state (tr : Transport) (s : UserStates) (chat_id : Int)
    (h : s chat_id ≠ some WAITING_FOR_CONTACT) :
    (telegram_webhook tr s (.textMessage chat_id (strOf "/start"))).isOk = true ∧
    (telegram_webhook tr s (.textMessage chat_id (strOf "/start"))).states chat_id = none ∧
    Effect.postText chat_id (startReply.text.getD []) startReply.buttons ∈
      (telegram_webhook tr s (.textMessage chat_id (strOf "/start"))).effects := by
  have hstep : telegram_webhook tr s (.textMessage chat_id (strOf "/start")) =
      .ok (clearState s chat_id)
        (Effect.observeChatId chat_id :: send_telegram_message tr chat_id startReply) := by
    simp only [telegram_webhook]
    rw [if_neg h, if_pos trivial]
  rw [hstep]
  refine ⟨rfl, ?_, ?_⟩
  · unfold WebhookResult.states clearState
    simp
  · unfold WebhookResult.effects
    refine List.mem_cons_of_mem _ ?_
    rw [send_text_eq (by decide) (by decide) tr chat_id]
    exact sendTextPath_mem tr chat_id startReply

/-- C3 witness: a user with no pending state. -/
theorem start_clears_state_witness :
    (telegram_webhook ⟨true, true, true, false, true⟩ (fun _ => none)
        (.textMessage 1 (strOf "/start"))).isOk = true ∧
    (telegram_webhook ⟨true, true, true, false, true⟩ (fun _ => none)
        (.textMessage 1 (strOf "/start"))).states 1 = none ∧
    Effect.postText 1 (startReply.text.getD []) startReply.buttons ∈
      (telegram_webhook ⟨true, true, true, false, true⟩ (fun _ => none)
        (.textMessage 1 (strOf "/start"))).effects :=
  start_clears_state ⟨true, true, true, false, true⟩ (fun _ => none) 1 (by simp)

/-- C3 counterexample: a user who is in `WAITING_FOR_CONTACT` and sends
`"/start"` keeps the pending state and does not get the start descriptor:
the registration branch is checked first and `"/start"` fails validation. -/
theorem start_while_waiting_keeps_state :
    (telegram_webhook ⟨true, true, true, false, true⟩
        (fun j => if j = 1 then some WAITING_FOR_CONTACT else none)
        (.textMessage 1 (strOf "/start"))).states 1 = some WAITING_FOR_CONTACT ∧
    Effect.postText 1 (startReply.text.getD []) startReply.buttons ∉
      (telegram_webhook ⟨true, true, true, false, true⟩
        (fun j => if j = 1 then some WAITING_FOR_CONTACT else none)
        (.textMessage 1 (strOf "/start"))).effects := by
  constructor
  · decide
  · decide

theorem waiting_invalid_step (tr : Transport) (s : UserStates) (chat_id : Int) (t : Str)
    (h1 : s chat_id = some WAITING_FOR_CONTACT) (h2 : validate t = .Invalid) :
    telegram_webhook tr s (.textMessage chat_id t) =
      .ok s (Effect.observeChatId chat_id ::
        send_telegram_message tr chat_id invalidFormatReply) := by
  simp only [telegram_webhook]
  rw [if_pos h1, h2]

/-- C4: while a user is in `WAITING_FOR_CONTACT`, a text message that fails
validation leaves the whole state map untouched and delivers the fixed
invalid-format descriptor, and any number of further invalid messages still
leaves the state map untouched. -/
theorem awaiting_invalid_fixed_point (tr : Transport) (s : UserStates) (chat_id : Int)
    (txt : Str) (txts : List Str)
    (h1 : s chat_id = some WAITING_FOR_CONTACT)
    (h2 : validate txt = .Invalid)
    (h3 : ∀ t ∈ txts, validate t = .Invalid) :
    (telegram_webhook tr s (.textMessage chat_id txt)).states = s ∧
    Effect.postText chat_id (invalidFormatReply.text.getD []) invalidFormatReply.buttons ∈
      (telegram_webhook tr s (.textMessage chat_id txt)).effects ∧
    runEvents tr (txts.map (InboundEvent.textMessage chat_id)) s = s := by
  refine ⟨?_, ?_, ?_⟩
  · rw [waiting_invalid_step tr s chat_id txt h1 h2]
    rfl
  · rw [waiting_invalid_step tr s chat_id txt h1 h2]
    unfold WebhookResult.effects
    refine List.mem_cons_of_mem _ ?_
    rw [send_text_eq (by decide) (by decide) tr chat_id]
    exact sendTextPath_mem tr chat_id invalidFormatReply
  · induction txts with
    | nil => rfl
    | cons t rest ih =>
      rw [List.map_cons]
      show runEvents tr (rest.map (InboundEvent.textMessage chat_id))
        ((telegram_webhook tr s (.textMessage chat_id t)).states) = s
      rw [waiting_invalid_step tr s chat_id t h1 (h3 t (by simp))]
      exact ih (fun t2 ht2 => h3 t2 (List.mem_cons_of_mem t ht2))

/-- C4 witness: a waiting user sends two malformed lines. -/
theorem awaiting_invalid_fixed_point_witness :
    (telegram_webhook ⟨true, true, true, false, true⟩
        (fun j => if j = 1 then some WAITING_FOR_CONTACT else none)
        (.textMessage 1 (strOf "nope"))).states = (fun j => if j = 1 then some WAITING_FOR_CONTACT else none) ∧
    Effect.postText 1 (invalidFormatReply.text.getD []) invalidFormatReply.buttons ∈
      (telegram_webhook ⟨true, true, true, false, true⟩
        (fun j => if j = 1 then some WAITING_FOR_CONTACT else none)
        (.textMessage 1 (strOf "nope"))).effects ∧
    runEvents ⟨true, true, true, false, true⟩
        ([strOf "bad one", strOf "also bad"].map (InboundEvent.textMessage 1))
        (fun j => if j = 1 then some WAITING_FOR_CONTACT else none)
      = (fun j => if j = 1 then some WAITING_FOR_CONTACT else none) :=
  awaiting_invalid_fixed_point ⟨true, true, true, false, true⟩
    (fun j => if j = 1 then some WAITING_FOR_CONTACT else none) 1
    (strOf "nope") [strOf "bad one", strOf "also bad"]
    (by simp) (by decide) (by decide)

theorem confirmation_ne_nil (name phone : Str) : confirmationText name phone ≠ [] := by
  unfold confirmationText
  exact ne_nil_append_right (by decide)

/-- C2: pressing the Register button (with the acknowledgment post not
raising) puts the user into `WAITING_FOR_CONTACT` and delivers the Register
descriptor; a following text message from that user that passes validation
returns the user to no pending state, delivers the confirmation descriptor,
and persists exactly one contact record, carrying the validated phone. -/
theorem registration_flow (tr : Transport) (s : UserStates) (chat_id : Int)
    (query_id txt name phone : Str)
    (hack : tr.ackRaises = false)
    (hval : validate txt = .Valid name phone) :
    (telegram_webhook tr s (.buttonPress chat_id query_id (strOf "Register"))).isOk = true ∧
    (telegram_webhook tr s (.buttonPress chat_id query_id (strOf "Register"))).states chat_id
      = some WAITING_FOR_CONTACT ∧
    Effect.postText chat_id (registerReply.text.getD []) registerReply.buttons ∈
      (telegram_webhook tr s (.buttonPress chat_id query_id (strOf "Register"))).effects ∧
    (telegram_webhook tr
        ((telegram_webhook tr s (.buttonPress chat_id query_id (strOf "Register"))).states)
        (.textMessage chat_id txt)).isOk = true ∧
    (telegram_webhook tr
        ((telegram_webhook tr s (.buttonPress chat_id query_id (strOf "Register"))).states)
        (.textMessage chat_id txt)).states chat_id = none ∧
    Effect.postText chat_id (confirmationText name phone) [] ∈
      (telegram_webhook tr
        ((telegram_webhook tr s (.buttonPress chat_id query_id (strOf "Register"))).states)
        (.textMessage chat_id txt)).effects ∧
    Effect.persistContact chat_id name phone ∈
      (telegram_webhook tr
        ((telegram_webhook tr s (.buttonPress chat_id query_id (strOf "Register"))).states)
        (.textMessage chat_id txt)).effects ∧
    ((telegram_webhook tr
        ((telegram_webhook tr s (.buttonPress chat_id query_id (strOf "Register"))).states)
        (.textMessage chat_id txt)).effects).countP isPersistEffect = 1 := by
  have hstep1 : telegram_webhook tr s (.buttonPress chat_id query_id (strOf "Register")) =
      .ok (setState s chat_id WAITING_FOR_CONTACT)
        (Effect.ackCallback query_id :: send_telegram_message tr chat_id registerReply) := by
    simp only [telegram_webhook]
    rw [hack]
    simp
  have hwait : (setState s chat_id WAITING_FOR_CONTACT) chat_id = some WAITING_FOR_CONTACT := by
    unfold setState
    simp
  have hstep2 : telegram_webhook tr (setState s chat_id WAITING_FOR_CONTACT)
      (.textMessage chat_id txt) =
      .ok (clearState (setState s chat_id WAITING_FOR_CONTACT) chat_id)
        (Effect.observeChatId chat_id ::
         Effect.persistContact chat_id name phone ::
         (send_telegram_message tr chat_id (textOnly (confirmationText name phone)) ++
          send_telegram_message tr chat_id startReply)) := by
    simp only [telegram_webhook]
    rw [if_pos hwait, hval]
  rw [hstep1]
  refine ⟨rfl, hwait, ?_, ?_, ?_, ?_, ?_, ?_⟩
  · unfold WebhookResult.effects
    refine List.mem_cons_of_mem _ ?_
    rw [send_text_eq (by decide) (by decide) tr chat_id]
    exact sendTextPath_mem tr chat_id registerReply
  · show (telegram_webhook tr (setState s chat_id WAITING_FOR_CONTACT) (.textMessage chat_id txt)).isOk = true
    rw [hstep2]
    rfl
  · show (telegram_webhook tr (setState s chat_id WAITING_FOR_CONTACT) (.textMessage chat_id txt)).states chat_id = none
    rw [hstep2]
    unfold WebhookResult.states clearState
    simp
  · show Effect.postText chat_id (confirmationText name phone) [] ∈
      (telegram_webhook tr (setState s chat_id WAITING_FOR_CONTACT) (.textMessage chat_id txt)).effects
    rw [hstep2]
    unfold WebhookResult.effects
    refine List.mem_cons_of_mem _ (List.mem_cons_of_mem _ (List.mem_append_left _ ?_))
    have hmem := postText_mem_send_textOnly tr chat_id (confirmationText name phone)
      (confirmation_ne_nil name phone)
    exact hmem
  · show Effect.persistContact chat_id name phone ∈
      (telegram_webhook tr (setState s chat_id WAITING_FOR_CONTACT) (.textMessage chat_id txt)).effects
    rw [hstep2]
    unfold WebhookResult.effects
    exact List.mem_cons_of_mem _ (List.mem_cons_self _ _)
  · show ((telegram_webhook tr (setState s chat_id WAITING_FOR_CONTACT) (.textMessage chat_id txt)).effects).countP isPersistEffect = 1
    rw [hstep2]
    unfold WebhookResult.effects
    rw [List.countP_cons, List.countP_cons, List.countP_append,
        send_countP_persist, send_countP_persist]
    rfl

/-- C2 witness: the registration flow of the spec's end-to-end example. -/
theorem registration_flow_witness :
    (telegram_webhook ⟨true, true, true, false, true⟩ (fun _ => none)
        (.buttonPress 7 (strOf "q1") (strOf "Register"))).isOk = true ∧
    (telegram_webhook ⟨true, true, true, false, true⟩ (fun _ => none)
        (.buttonPress 7 (strOf "q1") (strOf "Register"))).states 7
      = some WAITING_FOR_CONTACT ∧
    Effect.postText 7 (registerReply.text.getD []) registerReply.buttons ∈
      (telegram_webhook ⟨true, true, true, false, true⟩ (fun _ => none)
        (.buttonPress 7 (strOf "q1") (strOf "Register"))).effects ∧
    (telegram_webhook ⟨true, true, true, false, true⟩
        ((telegram_webhook ⟨true, true, true, false, true⟩ (fun _ => none)
          (.buttonPress 7 (strOf "q1") (strOf "Register"))).states)
        (.textMessage 7 (strOf "Jane +987654321098"))).isOk = true ∧
    (telegram_webhook ⟨true, true, true, false, true⟩
        ((telegram_webhook ⟨true, true, true, false, true⟩ (fun _ => none)
          (.buttonPress 7 (strOf "q1") (strOf "Register"))).states)
        (.textMessage 7 (strOf "Jane +987654321098"))).states 7 = none ∧
    Effect.postText 7 (confirmationText (strOf "Jane") (strOf "+987654321098")) [] ∈
      (telegram_webhook ⟨true, true, true, false, true⟩
        ((telegram_webhook ⟨true, true, true, false, true⟩ (fun _ => none)
          (.buttonPress 7 (strOf "q1") (strOf "Register"))).states)
        (.textMessage 7 (strOf "Jane +987654321098"))).effects ∧
    Effect.persistContact 7 (strOf "Jane") (strOf "+987654321098") ∈
      (telegram_webhook ⟨true, true, true, false, true⟩
        ((telegram_webhook ⟨true, true, true, false, true⟩ (fun _ => none)
          (.buttonPress 7 (strOf "q1") (strOf "Register"))).states)
        (.textMessage 7 (strOf "Jane +987654321098"))).effects ∧
    ((telegram_webhook ⟨true, true, true, false, true⟩
        ((telegram_webhook ⟨true, true, true, false, true⟩ (fun _ => none)
          (.buttonPress 7 (strOf "q1") (strOf "Register"))).states)
        (.textMessage 7 (strOf "Jane +987654321098"))).effects).countP isPersistEffect = 1 :=
  registration_flow ⟨true, true, true, false, true⟩ (fun _ => none) 7
    (strOf "q1") (strOf "Jane +987654321098") (strOf "Jane") (strOf "+987654321098")
    rfl (by decide)

/-- C5 (amended): every text message triggers exactly one observe-user-id
notification (`save_chat_ids`), whichever branch fires; a button press
triggers none, because the callback branch never calls `save_chat_ids`. -/
theorem observe_only_for_messages (tr : Transport) (s : UserStates) (chat_id : Int)
    (txt query_id callback_data : Str) :
    (telegram_webhook tr s (.textMessage chat_id txt)).effects.countP isObserveEffect = 1 ∧
    (telegram_webhook tr s (.buttonPress chat_id query_id callback_data)).effects.countP
      isObserveEffect = 0 := by
  constructor
  · simp only [telegram_webhook]
    split
    · split
      · simp [WebhookResult.effects, List.countP_cons, List.countP_append,
              send_countP_observe, isObserveEffect]
      · simp [WebhookResult.effects, List.countP_cons, send_countP_observe, isObserveEffect]
    · split
      · simp [WebhookResult.effects, List.countP_cons, send_countP_observe, isObserveEffect]
      · split
        · simp [WebhookResult.effects, List.countP_cons, send_countP_observe, isObserveEffect]
        · simp [WebhookResult.effects, List.countP_cons, send_countP_observe, isObserveEffect]
  · simp only [telegram_webhook]
    split
    · simp [WebhookResult.effects, isObserveEffect]
    · split
      · simp [WebhookResult.effects, List.countP_cons, send_countP_observe, isObserveEffect]
      · split
        · simp [WebhookResult.effects, List.countP_cons, send_countP_observe, isObserveEffect]
        · simp [WebhookResult.effects, List.countP_cons, send_countP_observe, isObserveEffect]

/-- C5 counterexample: a button press produces no observe-user-id
notification at all, contradicting "every inbound event triggers exactly
one". -/
theorem button_press_not_observed :
    ¬ ((telegram_webhook ⟨true, true, true, false, true⟩ (fun _ => none)
        (.buttonPress 1 (strOf "q1") (strOf "Option A"))).effects.countP
          isObserveEffect = 1) := by
  decide

theorem hasMedia_not_empty {reply : Reply} (h : hasMedia reply = true) :
    isEmptyReply reply = false := by
  unfold hasMedia at h
  unfold isEmptyReply
  cases hp : truthyStr reply.photo <;> cases hf : truthyStr reply.file <;>
    simp [hp, hf] at h ⊢

/-- Media-post effects, i.e. attempts to call sendPhoto/sendDocument. -/
def isMediaPost : Effect → Bool
  | .postMedia _ _ _ _ => true
  | _ => false

theorem sendTextPath_no_media (tr : Transport) (chat_id : Int) (reply : Reply) :
    ∀ e ∈ sendTextPath tr chat_id reply, isMediaPost e = false := by
  intro e he
  unfold sendTextPath at he
  split at he
  · simp at he
    rcases he with h | ⟨h1, h2⟩
    · subst h; rfl
    · subst h2; rfl
  · simp at he
    rcases he with h | h <;> subst h <;> rfl

/-- C6: when a reply carries media and the file is missing, the pipeline
falls back to one plain-text warning that embeds the missing resource name
and the original text, and never attempts a media post; on any other failure
of the media send it logs and stops, with no text send substituted. -/
theorem media_failure_handling (tr : Transport) (chat_id : Int) (reply : Reply)
    (hm : hasMedia reply = true) :
    (tr.fileFound = false →
      (∀ b k cap, Effect.postMedia chat_id b k cap ∉
        send_telegram_message tr chat_id reply) ∧
      Effect.postText chat_id (fileNotFoundText reply) [] ∈
        send_telegram_message tr chat_id reply ∧
      (∃ pre post, fileNotFoundText reply = pre ++ mediaFileKey reply ++ post) ∧
      (∀ t, reply.text = some t → ∃ pre, fileNotFoundText reply = pre ++ t)) ∧
    (tr.fileFound = true → tr.mediaOk = false →
      send_telegram_message tr chat_id reply =
        [Effect.postMedia chat_id (truthyStr reply.photo) (mediaFileKey reply)
           (reply.text.getD []),
         Effect.logMediaError]) := by
  have hne := hasMedia_not_empty hm
  constructor
  · intro hff
    have hsend : send_telegram_message tr chat_id reply =
        Effect.logFileNotFound (mediaFileKey reply) ::
          sendTextPath tr chat_id (textOnly (fileNotFoundText reply)) := by
      unfold send_telegram_message
      simp [hne, hm, hff]
    refine ⟨?_, ?_, ?_, ?_⟩
    · intro b k cap hmem
      rw [hsend] at hmem
      rcases List.mem_cons.mp hmem with h | h
      · exact Effect.noConfusion h
      · have := sendTextPath_no_media tr chat_id (textOnly (fileNotFoundText reply)) _ h
        simp [isMediaPost] at this
    · rw [hsend]
      refine List.mem_cons_of_mem _ ?_
      have hfn : fileNotFoundText reply ≠ [] := by
        unfold fileNotFoundText
        exact ne_nil_append_left (ne_nil_append_left (ne_nil_append_left (by decide)))
      rw [← textOnly_path tr chat_id _ hfn] at hsend ⊢
      exact postText_mem_send_textOnly tr chat_id _ hfn
    · refine ⟨strOf "⚠️ Media file not found for `",
        strOf "`. " ++ reply.text.getD (strOf "Placeholder message."), ?_⟩
      unfold fileNotFoundText
      simp [List.append_assoc]
    · intro t ht
      refine ⟨strOf "⚠️ Media file not found for `" ++ mediaFileKey reply ++ strOf "`. ", ?_⟩
      unfold fileNotFoundText
      rw [ht]
      simp [List.append_assoc]
  · intro hff hmo
    unfold send_telegram_message
    simp [hne, hm, hff, hmo]

/-- C6 witness: a photo reply, once with the file missing, once with the
media post failing. -/
theorem media_failure_handling_witness :
    ((⟨false, true, true, false, true⟩ : Transport).fileFound = false →
      (∀ b k cap, Effect.postMedia 1 b k cap ∉
        send_telegram_message ⟨false, true, true, false, true⟩ 1
          ⟨some (strOf "cap"), [], some (strOf "pic.png"), none, none⟩) ∧
      Effect.postText 1
          (fileNotFoundText ⟨some (strOf "cap"), [], some (strOf "pic.png"), none, none⟩) [] ∈
        send_telegram_message ⟨false, true, true, false, true⟩ 1
          ⟨some (strOf "cap"), [], some (strOf "pic.png"), none, none⟩ ∧
      (∃ pre post, fileNotFoundText ⟨some (strOf "cap"), [], some (strOf "pic.png"), none, none⟩
        = pre ++ mediaFileKey ⟨some (strOf "cap"), [], some (strOf "pic.png"), none, none⟩ ++ post) ∧
      (∀ t, (⟨some (strOf "cap"), [], some (strOf "pic.png"), none, none⟩ : Reply).text = some t →
        ∃ pre, fileNotFoundText ⟨some (strOf "cap"), [], some (strOf "pic.png"), none, none⟩
          = pre ++ t)) ∧
    ((⟨true, false, true, false, true⟩ : Transport).fileFound = true →
      (⟨true, false, true, false, true⟩ : Transport).mediaOk = false →
      send_telegram_message ⟨true, false, true, false, true⟩ 1
          ⟨some (strOf "cap"), [], some (strOf "pic.png"), none, none⟩ =
        [Effect.postMedia 1
           (truthyStr (⟨some (strOf "cap"), [], some (strOf "pic.png"), none, none⟩ : Reply).photo)
           (mediaFileKey ⟨some (strOf "cap"), [], some (strOf "pic.png"), none, none⟩)
           ((⟨some (strOf "cap"), [], some (strOf "pic.png"), none, none⟩ : Reply).text.getD []),
         Effect.logMediaError]) :=
  ⟨(media_failure_handling ⟨false, true, true, false, true⟩ 1
      ⟨some (strOf "cap"), [], some (strOf "pic.png"), none, none⟩ (by decide)).1,
   (media_failure_handling ⟨true, false, true, false, true⟩ 1
      ⟨some (strOf "cap"), [], some (strOf "pic.png"), none, none⟩ (by decide)).2⟩

/-- Primary-send effects: one HTTP post of the main message (media or text). -/
def isPrimaryPost : Effect → Bool
  | .postMedia _ _ _ _ => true
  | .postText _ _ _ => true
  | _ => false

/-- Follow-up scheduling effects (`threading.Timer(...).start()`). -/
def isScheduleEffect : Effect → Bool
  | .scheduleDelayed _ _ => true
  | _ => false

/-- Posts performed by the delayed worker. -/
def isDelayedPost : Effect → Bool
  | .postDelayed _ _ => true
  | _ => false

theorem truthyStr_none : truthyStr none = false := rfl

/-- C7: per `deliver` call there is at most one primary post and at most one
scheduled follow-up; a follow-up is scheduled only when the primary post
succeeded (no transport error was logged) and carries exactly the
`follow_up` text; the primary trace does not depend on whether the delayed
send will succeed; and the delayed worker performs exactly one post of the
bare text. -/
theorem delivery_guarantees (f m t a d d2 : Bool) (chat_id : Int) (reply : Reply) :
    (send_telegram_message ⟨f, m, t, a, d⟩ chat_id reply).countP isPrimaryPost ≤ 1 ∧
    (send_telegram_message ⟨f, m, t, a, d⟩ chat_id reply).countP isScheduleEffect ≤ 1 ∧
    (∀ c2 txt, Effect.scheduleDelayed c2 txt ∈ send_telegram_message ⟨f, m, t, a, d⟩ chat_id reply →
       c2 = chat_id ∧ txt = reply.follow_up.getD [] ∧
       Effect.logTextError ∉ send_telegram_message ⟨f, m, t, a, d⟩ chat_id reply ∧
       Effect.logMediaError ∉ send_telegram_message ⟨f, m, t, a, d⟩ chat_id reply) ∧
    send_telegram_message ⟨f, m, t, a, d⟩ chat_id reply
      = send_telegram_message ⟨f, m, t, a, d2⟩ chat_id reply ∧
    (send_delayed_message ⟨f, m, t, a, d⟩ chat_id (reply.follow_up.getD [])).countP
      isDelayedPost = 1 := by
  cases hE : isEmptyReply reply <;> cases hM : hasMedia reply <;>
    cases f <;> cases m <;> cases t <;> cases d <;> cases hF : truthyStr reply.follow_up <;>
    simp [send_telegram_message, sendTextPath, send_delayed_message, hE, hM, hF,
      List.countP_cons, isPrimaryPost, isScheduleEffect, isDelayedPost, isMediaPost,
      textOnly, truthyStr_none]

/-- C7 witness: the sequential-step reply, whose descriptor carries a
follow-up text, with a transport where every post succeeds. -/
theorem delivery_guarantees_witness :
    (send_telegram_message ⟨true, true, true, false, true⟩ 1 seqStep2Reply).countP
      isPrimaryPost ≤ 1 ∧
    (send_telegram_message ⟨true, true, true, false, true⟩ 1 seqStep2Reply).countP
      isScheduleEffect ≤ 1 ∧
    send_telegram_message ⟨true, true, true, false, true⟩ 1 seqStep2Reply
      = send_telegram_message ⟨true, true, true, false, false⟩ 1 seqStep2Reply ∧
    (send_delayed_message ⟨true, true, true, false, true⟩ 1
      (seqStep2Reply.follow_up.getD [])).countP isDelayedPost = 1 := by
  obtain ⟨h1, h2, h3, h4, h5⟩ := delivery_guarantees true true true false true false 1 seqStep2Reply
  exact ⟨h1, h2, h4, h5⟩

/-- C8 (amended): the handler returns normally on every inbound event except
that, on a button press, a raising `answerCallbackQuery` post (which line 227
does not wrap in try/except) propagates out of the handler. -/
theorem handler_abort_only_on_ack (tr : Transport) (s : UserStates) (ev : InboundEvent) :
    (telegram_webhook tr s ev).isOk = true ∨
    (tr.ackRaises = true ∧ ∃ chat_id query_id callback_data,
       ev = .buttonPress chat_id query_id callback_data) := by
  cases ev with
  | textMessage chat_id txt =>
    left
    simp only [telegram_webhook]
    (repeat' split) <;> rfl
  | buttonPress chat_id query_id callback_data =>
    cases ha : tr.ackRaises with
    | true => exact Or.inr ⟨rfl, chat_id, query_id, callback_data, rfl⟩
    | false =>
      left
      simp only [telegram_webhook]
      rw [if_neg (by simp [ha])]
      (repeat' split) <;> rfl

/-- C8 counterexample: when the acknowledgment post raises, the handler for
a button press aborts with an uncaught exception instead of resolving to a
send or a log line. -/
theorem ack_raise_aborts_handler :
    (telegram_webhook ⟨true, true, true, true, true⟩ (fun _ => none)
      (.buttonPress 1 (strOf "q1") (strOf "Option A"))).isOk = false := by
  decide

/-- C9: a button press whose callback id is not a catalog key (and whose
acknowledgment does not raise) leaves the whole state map untouched and
delivers a reply whose text embeds the literal callback id. -/
theorem unknown_callback_frame (tr : Transport) (s : UserStates) (chat_id : Int)
    (query_id callback_data : Str)
    (h1 : lookupMap RESPONSES_MAP callback_data = none)
    (h2 : tr.ackRaises = false) :
    (telegram_webhook tr s (.buttonPress chat_id query_id callback_data)).isOk = true ∧
    (telegram_webhook tr s (.buttonPress chat_id query_id callback_data)).states = s ∧
    Effect.postText chat_id (unknownOptionText callback_data) [] ∈
      (telegram_webhook tr s (.buttonPress chat_id query_id callback_data)).effects ∧
    (∃ pre post, unknownOptionText callback_data = pre ++ callback_data ++ post) := by
  have hreg : lookupMap RESPONSES_MAP (strOf "Register") = some registerReply := by decide
  have hne : ¬ (callback_data = strOf "Register") := by
    intro hcb
    rw [hcb, hreg] at h1
    exact Option.noConfusion h1
  have hstep : telegram_webhook tr s (.buttonPress chat_id query_id callback_data) =
      .ok s (Effect.ackCallback query_id ::
        send_telegram_message tr chat_id (textOnly (unknownOptionText callback_data))) := by
    simp only [telegram_webhook]
    rw [if_neg (by simp [h2]), if_neg hne, h1]
  rw [hstep]
  have hunk : unknownOptionText callback_data ≠ [] := by
    unfold unknownOptionText
    exact ne_nil_append_right (by decide)
  refine ⟨rfl, rfl, ?_, ?_⟩
  · unfold WebhookResult.effects
    exact List.mem_cons_of_mem _ (postText_mem_send_textOnly tr chat_id _ hunk)
  · refine ⟨strOf "Unknown option: `", strOf "`\n\nTry /start", ?_⟩
    unfold unknownOptionText
    simp [List.append_assoc]

/-- C9 witness: the unknown id `"xyz"`. -/
theorem unknown_callback_frame_witness :
    (telegram_webhook ⟨true, true, true, false, true⟩ (fun _ => none)
      (.buttonPress 1 (strOf "q1") (strOf "xyz"))).isOk = true ∧
    (telegram_webhook ⟨true, true, true, false, true⟩ (fun _ => none)
      (.buttonPress 1 (strOf "q1") (strOf "xyz"))).states = (fun _ => none) ∧
    Effect.postText 1 (unknownOptionText (strOf "xyz")) [] ∈
      (telegram_webhook ⟨true, true, true, false, true⟩ (fun _ => none)
        (.buttonPress 1 (strOf "q1") (strOf "xyz"))).effects ∧
    (∃ pre post, unknownOptionText (strOf "xyz") = pre ++ strOf "xyz" ++ post) :=
  unknown_callback_frame ⟨true, true, true, false, true⟩ (fun _ => none) 1
    (strOf "q1") (strOf "xyz") (by decide) rfl

theorem webhook_states_shape (tr : Transport) (s : UserStates) (ev : InboundEvent) :
    (telegram_webhook tr s ev).states = s ∨
    (∃ chat_id, (telegram_webhook tr s ev).states = setState s chat_id WAITING_FOR_CONTACT) ∨
    (∃ chat_id, (telegram_webhook tr s ev).states = clearState s chat_id) := by
  cases ev with
  | buttonPress chat_id query_id callback_data =>
    simp only [telegram_webhook]
    (repeat' split) <;>
      first
        | exact Or.inl rfl
        | exact Or.inr (Or.inl ⟨chat_id, rfl⟩)
        | exact Or.inr (Or.inr ⟨chat_id, rfl⟩)
  | textMessage chat_id message_text =>
    simp only [telegram_webhook]
    (repeat' split) <;>
      first
        | exact Or.inl rfl
        | exact Or.inr (Or.inl ⟨chat_id, rfl⟩)
        | exact Or.inr (Or.inr ⟨chat_id, rfl⟩)

/-- C10: handling any sequence of events from a state map whose entries all
hold `WAITING_FOR_CONTACT` keeps that invariant: the only write ever
performed stores `WAITING_FOR_CONTACT`, and every other transition only
removes entries. -/
theorem states_invariant (tr : Transport) (evs : List InboundEvent) (s : UserStates)
    (h : StatesInv s) : StatesInv (runEvents tr evs s) := by
  induction evs generalizing s with
  | nil => exact h
  | cons ev rest ih =>
    show StatesInv (runEvents tr rest ((telegram_webhook tr s ev).states))
    apply ih
    rcases webhook_states_shape tr s ev with hs | ⟨c, hs⟩ | ⟨c, hs⟩ <;> rw [hs]
    · exact h
    · intro j v hv
      unfold setState at hv
      by_cases hj : j = c
      · rw [if_pos hj] at hv
        injection hv with hv
        exact hv.symm
      · rw [if_neg hj] at hv
        exact h j v hv
    · intro j v hv
      unfold clearState at hv
      by_cases hj : j = c
      · rw [if_pos hj] at hv
        exact Option.noConfusion hv
      · rw [if_neg hj] at hv
        exact h j v hv

/-- C10 witness: from the empty map, a Register press then an unrelated
message keep every stored entry equal to `WAITING_FOR_CONTACT`. -/
theorem states_invariant_witness :
    StatesInv (runEvents ⟨true, true, true, false, true⟩
      [.buttonPress 4 (strOf "q1") (strOf "Register"), .textMessage 9 (strOf "hello")]
      (fun _ => none)) :=
  states_invariant ⟨true, true, true, false, true⟩
    [.buttonPress 4 (strOf "q1") (strOf "Register"), .textMessage 9 (strOf "hello")]
    (fun _ => none) (fun _ v hv => Option.noConfusion hv)
